import Mathlib

/-!
Shallow embedding of the realtime connection manager
(`src/scout-clone/src/services/websocket.ts`, class `WebSocketService`).

The class is single-threaded and event-driven: every method and every
transport callback runs to completion before the next one.  We embed each
method, and each transport event handler installed by `connect`, as a pure
function from the manager state to a new manager state paired with a trace
of externally observable effects (console logs, event emissions, transport
writes, timer operations).  Callbacks registered through `on` are modelled
by numeric identities; whether a given callback throws when invoked is an
oracle `throws : Nat → Bool` supplied by the environment, and whether a
transport write succeeds is likewise an environment oracle.  Time-stamps
(`new Date()` / `Date.now()`) are modelled by a `now : Nat` drawn from the
environment.
-/

namespace WS

/-- Browser WebSocket readyState constant CONNECTING = 0. -/
def CONNECTING : Nat := 0

/-- Browser WebSocket readyState constant OPEN = 1. -/
def OPEN : Nat := 1

/-- Browser WebSocket readyState constant CLOSING = 2. -/
def CLOSING : Nat := 2

/-- Browser WebSocket readyState constant CLOSED = 3. -/
def CLOSED : Nat := 3

/-- A transport handle (`WebSocket` object).  `id` is the identity of the
underlying object, so that distinct `new WebSocket(...)` constructions are
distinguishable; `readyState` is the state the browser reports for it.
Every socket constructed inside `connect` has the manager handlers
(`onopen`, `onclose`, `onerror`, `onmessage`) assigned right after
construction; no statement in the source ever clears them, so handler
attachment needs no field: it holds for every constructed socket forever. -/
structure Socket where
  id : Nat
  readyState : Nat
deriving Repr, DecidableEq

/-- An entry of `messageQueue`: the `{ event, data }` pair pushed by `send`. -/
structure QMsg where
  event : String
  data : String
deriving Repr, DecidableEq

/-- The serialized wire message built at the top of `send`:
`{ type: event, data, timestamp: new Date().toISOString() }`. -/
structure WireMsg where
  type : String
  data : String
  timestamp : Nat
deriving Repr, DecidableEq

/-- Payload of an emitted event, mirroring the object literals the source
passes to `emit`. -/
inductive Payload where
  /-- Code `{ timestamp: new Date() }` (used by the `connected` emission). -/
  | timestampOnly (now : Nat)
  /-- Code `{ code, reason, timestamp }` (used by the `disconnected` emission). -/
  | closeInfo (code : Nat) (reason : String) (now : Nat)
  /-- Code `{ error, timestamp }` (used by the `error` emissions). -/
  | errorInfo (now : Nat)
  /-- a payload forwarded verbatim from an incoming frame or a caller. -/
  | raw (s : String)
deriving Repr, DecidableEq

/-- Externally observable effects of one method or handler run. -/
inductive Effect where
  /-- a `console.log` / `console.warn` / `console.error` diagnostic. -/
  | log (msg : String)
  /-- the manager called `emit(event, p)` (one per `emit` call). -/
  | emitted (event : String) (p : Payload)
  /-- a registered callback was invoked with the payload and returned. -/
  | invoked (event : String) (cb : Nat) (p : Payload)
  /-- a registered callback was invoked and threw; the exception was
  caught and logged inside `emit`. -/
  | cbThrew (event : String) (cb : Nat)
  /-- Code `this.socket!.send(JSON.stringify(message))` succeeded on the socket
  with the given id. -/
  | wrote (sock : Nat) (m : WireMsg)
  /-- Code `this.socket.close()` was called on the socket with the given id. -/
  | closeSock (sock : Nat)
  /-- Code `setTimeout(... connect ..., delay)` scheduled a reconnect. -/
  | setTimeout (delay : Nat)
  /-- Code `clearTimeout(this.reconnectTimeout)`. -/
  | clearTimeout
  /-- Code `setInterval(... ping ..., ms)` started the heartbeat. -/
  | setInterval (ms : Nat)
  /-- Code `clearInterval(this.pingInterval)`. -/
  | clearInterval
deriving Repr, DecidableEq

/-- The mutable fields of class `WebSocketService`.  `listeners` is the
`Map<string, Set<callback>>`: an association list from event name to the
insertion-ordered, duplicate-free list of callback identities (JS `Set`
iterates in insertion order and ignores re-insertion).  `reconnectTimeout`
holds the delay of the pending reconnect timer when one is pending
(`NodeJS.Timeout` handle in the source); `pingInterval` records whether the
heartbeat interval timer is active. -/
structure WSState where
  socket : Option Socket
  listeners : List (String × List Nat)
  reconnectAttempts : Nat
  maxReconnectAttempts : Nat
  reconnectDelay : Nat
  reconnectTimeout : Option Nat
  pingInterval : Bool
  messageQueue : List QMsg
deriving Repr, DecidableEq

/-- The field initializers of the class (lines 4-11 of the source). -/
def initialState : WSState :=
  { socket := none
    listeners := []
    reconnectAttempts := 0
    maxReconnectAttempts := 5
    reconnectDelay := 1000
    reconnectTimeout := none
    pingInterval := false
    messageQueue := [] }

/-- Code `isConnected(): boolean { return this.socket?.readyState === WebSocket.OPEN }`. -/
def isConnected (s : WSState) : Bool :=
  match s.socket with
  | some sk => sk.readyState == OPEN
  | none => false

/-- The id of the current socket; only meaningful where the source uses
`this.socket!` (after an `isConnected` check). -/
def socketId (s : WSState) : Nat :=
  match s.socket with
  | some sk => sk.id
  | none => 0

/-- Code `listeners.get(event)` on the raw association list: the callback set of
the first entry for the event, empty when the map has no entry. -/
def lookupListeners (l : List (String × List Nat)) (event : String) : List Nat :=
  match l.find? (fun p => p.1 == event) with
  | some p => p.2
  | none => []

/-- Code `this.listeners.get(event)` as a list of callback identities (empty when
the map has no entry). -/
def listenersFor (s : WSState) (event : String) : List Nat :=
  lookupListeners s.listeners event

/-- JS `Set.add`: a no-op when the element is present, otherwise appended
(insertion order). -/
def setAdd (l : List Nat) (cb : Nat) : List Nat :=
  if cb ∈ l then l else l ++ [cb]

/-- Insert `cb` into the listener map under `event`, creating the entry on
first subscription (source lines 188-191). -/
def addListener : List (String × List Nat) → String → Nat → List (String × List Nat)
  | [], event, cb => [(event, [cb])]
  | (e, cbs) :: rest, event, cb =>
    if e == event then (e, setAdd cbs cb) :: rest
    else (e, cbs) :: addListener rest event cb

/-- Code `on(event, callback)`: register the callback (the state change only;
the returned unsubscribe closure is `unsubscribe` below).  Named `onEvent`
because `on` is reserved in Lean. -/
def onEvent (s : WSState) (event : String) (cb : Nat) : WSState :=
  { s with listeners := addListener s.listeners event cb }

/-- JS `Set.delete(callback)` applied to the set the map holds for `event`
(`Map` keys are unique, so this is the first matching entry); without an
entry (`?.`) nothing happens. -/
def removeListener : List (String × List Nat) → String → Nat → List (String × List Nat)
  | [], _, _ => []
  | (k, v) :: rest, event, cb =>
    if k == event then (k, v.filter (fun c => c ≠ cb)) :: rest
    else (k, v) :: removeListener rest event cb

/-- The unsubscribe closure returned by `on(event, callback)`
(`this.listeners.get(event)?.delete(callback)`), which is also
`off(event, callback)` with a callback supplied. -/
def unsubscribe (s : WSState) (event : String) (cb : Nat) : WSState :=
  { s with listeners := removeListener s.listeners event cb }

/-- Code `off(event)` with no callback: `this.listeners.delete(event)`. -/
def offAll (s : WSState) (event : String) : WSState :=
  { s with listeners := s.listeners.filter (fun p => p.1 ≠ event) }

/-- Code `emit(event, data)` (source lines 207-215): iterate over the registered
set; each callback is invoked inside its own try/catch, so a throwing
callback is logged and iteration continues.  `emit` never changes the state
and never throws; its value is the effect trace. -/
def emit (throws : Nat → Bool) (s : WSState) (event : String) (p : Payload) : List Effect :=
  Effect.emitted event p ::
    (listenersFor s event).map (fun cb =>
      if throws cb then Effect.cbThrew event cb else Effect.invoked event cb p)

/-- Code `stopPingInterval()` (source lines 96-101). -/
def stopPingInterval (s : WSState) : WSState × List Effect :=
  if s.pingInterval then ({ s with pingInterval := false }, [Effect.clearInterval])
  else (s, [])

/-- Code `startPingInterval()` (source lines 86-94): stop any existing heartbeat,
then start a 30000 time-unit interval. -/
def startPingInterval (s : WSState) : WSState × List Effect :=
  let r := stopPingInterval s
  ({ r.1 with pingInterval := true }, r.2 ++ [Effect.setInterval 30000])

/-- Code `scheduleReconnect()` (source lines 71-84): clear a pending timer if
any, increment the attempt counter, compute
`delay = reconnectDelay * 2 ^ min(reconnectAttempts - 1, 4)` with the
already incremented counter, and schedule `connect` after `delay`. -/
def scheduleReconnect (s : WSState) : WSState × List Effect :=
  let cancel : List Effect := if s.reconnectTimeout.isSome then [Effect.clearTimeout] else []
  let attempts := s.reconnectAttempts + 1
  let delay := s.reconnectDelay * 2 ^ min (attempts - 1) 4
  ({ s with reconnectAttempts := attempts, reconnectTimeout := some delay },
   cancel ++ [Effect.log "Reconnecting", Effect.setTimeout delay])

/-- Environment of one `connect` call: whether `new WebSocket(wsUrl)`
returns normally or throws synchronously, the identity of the object it
returns when it does, the clock, and the callback-throw oracle used by the
`emit` in the catch branch. -/
structure ConnectEnv where
  ctorOk : Bool
  freshId : Nat
  now : Nat
  throws : Nat → Bool

/-- Code `connect(url?)` (source lines 13-69).  If the current socket reports
OPEN the call logs and returns with nothing changed.  Otherwise
`new WebSocket(wsUrl)` either returns a fresh handle in state CONNECTING
(which is stored, and the four handlers are assigned to it) or throws
synchronously, in which case the assignment never happens, the catch logs
and emits `error`, and the state is left exactly as it was: in particular
no reconnect is scheduled and the previous socket, if any, keeps its
handlers attached and is neither closed nor detached. -/
def connect (env : ConnectEnv) (s : WSState) : WSState × List Effect :=
  if isConnected s then
    (s, [Effect.log "WebSocket already connected"])
  else if env.ctorOk then
    ({ s with socket := some { id := env.freshId, readyState := CONNECTING } }, [])
  else
    (s, Effect.log "Failed to create WebSocket connection" ::
        emit env.throws s "error" (Payload.errorInfo env.now))

/-- Code `send(event, data)` (source lines 120-139).  `writeOk` tells whether
`this.socket!.send(...)` returns normally or throws on this call. -/
def send (now : Nat) (writeOk : Bool) (s : WSState) (event : String) (data : String) :
    WSState × List Effect :=
  let message : WireMsg := { type := event, data := data, timestamp := now }
  if ¬ isConnected s then
    ({ s with messageQueue := s.messageQueue ++ [{ event := event, data := data }] },
     [Effect.log "WebSocket not connected, queueing message"])
  else if writeOk then
    (s, [Effect.wrote (socketId s) message])
  else
    ({ s with messageQueue := s.messageQueue ++ [{ event := event, data := data }] },
     [Effect.log "Failed to send WebSocket message"])

/-- A sequence of `send` calls, in call order, all at the same clock and
with the same write oracle. -/
def sendMany (now : Nat) (writeOk : Bool) (s : WSState) : List QMsg → WSState × List Effect
  | [] => (s, [])
  | m :: rest =>
    let r := send now writeOk s m.event m.data
    let r2 := sendMany now writeOk r.1 rest
    (r2.1, r.2 ++ r2.2)

/-- The drain loop inside the `onopen` handler (source lines 30-35):
`while (this.messageQueue.length > 0) { const msg = this.messageQueue.shift();
if (msg) this.send(msg.event, msg.data) }`.  `shift` removes the head;
`send` is the live send path and may push the message back.  The loop is
run on `fuel` steps of the `while` test; `none` means the fuel was
exhausted with the queue still non-empty, i.e. the concrete loop has not
terminated within that many iterations.  `writeOk i` tells whether the
i-th write of this drain succeeds. -/
def drainLoop (now : Nat) (writeOk : Nat → Bool) :
    Nat → Nat → WSState → Option (WSState × List Effect)
  | 0, _, s => if s.messageQueue.isEmpty then some (s, []) else none
  | fuel + 1, step, s =>
    match s.messageQueue with
    | [] => some (s, [])
    | m :: rest =>
      let s1 : WSState := { s with messageQueue := rest }
      let r := send now (writeOk step) s1 m.event m.data
      match drainLoop now writeOk fuel (step + 1) r.1 with
      | some p => some (p.1, r.2 ++ p.2)
      | none => none

/-- The `onopen` handler (source lines 24-39), run by the browser once the
stored socket has moved to readyState OPEN: reset the attempt counter,
emit `connected`, drain the queue through `send`, start the heartbeat. -/
def handleOpen (throws : Nat → Bool) (writeOk : Nat → Bool) (now fuel : Nat) (s : WSState) :
    Option (WSState × List Effect) :=
  let s0 : WSState := { s with reconnectAttempts := 0 }
  let e0 := Effect.log "WebSocket connected" :: emit throws s0 "connected" (Payload.timestampOnly now)
  match drainLoop now writeOk fuel 0 s0 with
  | none => none
  | some p =>
    let r := startPingInterval p.1
    some (r.1, e0 ++ p.2 ++ r.2)

/-- The `onclose` handler (source lines 41-50), run by the browser when a
close event is delivered to a socket that still has the handler assigned
(the source never detaches handlers, so that is every socket `connect`
ever constructed): emit `disconnected`, stop the heartbeat, and schedule a
reconnect when the attempt counter is still below the maximum.  The
handler reads and mutates only the manager, never the event target, so it
runs the same way whether the closing socket is the current one or a
superseded one. -/
def handleClose (throws : Nat → Bool) (code : Nat) (reason : String) (now : Nat)
    (s : WSState) : WSState × List Effect :=
  let e0 := Effect.log "WebSocket disconnected" ::
    emit throws s "disconnected" (Payload.closeInfo code reason now)
  let r1 := stopPingInterval s
  if r1.1.reconnectAttempts < r1.1.maxReconnectAttempts then
    let r2 := scheduleReconnect r1.1
    (r2.1, e0 ++ r1.2 ++ r2.2)
  else
    (r1.1, e0 ++ r1.2)

/-- The `onerror` handler (source lines 52-55). -/
def handleError (throws : Nat → Bool) (now : Nat) (s : WSState) : WSState × List Effect :=
  (s, Effect.log "WebSocket error" :: emit throws s "error" (Payload.errorInfo now))

/-- Code `disconnect()` (source lines 103-118): clear a pending reconnect timer,
stop the heartbeat, force the attempt counter to the maximum, close and
drop the socket if present, clear the queue. -/
def disconnect (s : WSState) : WSState × List Effect :=
  let cancel : List Effect := if s.reconnectTimeout.isSome then [Effect.clearTimeout] else []
  let s1 : WSState := { s with reconnectTimeout := none }
  let r1 := stopPingInterval s1
  let s2 : WSState := { r1.1 with reconnectAttempts := r1.1.maxReconnectAttempts }
  match s2.socket with
  | some sk =>
    ({ s2 with socket := none, messageQueue := [] },
     cancel ++ r1.2 ++ [Effect.closeSock sk.id])
  | none =>
    ({ s2 with messageQueue := [] }, cancel ++ r1.2)

/-- The wire messages written to the transport in an effect trace, in
order. -/
def writesIn (effs : List Effect) : List WireMsg :=
  effs.filterMap (fun e => match e with
    | Effect.wrote _ m => some m
    | _ => none)

/-- How many times an `emit(event, _)` call occurs in a trace. -/
def emitCount (effs : List Effect) (event : String) : Nat :=
  (effs.filter (fun e => match e with
    | Effect.emitted e' _ => e' == event
    | _ => false)).length

/-- Delivery attempts (successful invocation or caught throw) made to a
given callback in a trace. -/
def deliveriesTo (effs : List Effect) (cb : Nat) : Nat :=
  (effs.filter (fun e => match e with
    | Effect.invoked _ c _ => c == cb
    | Effect.cbThrew _ c => c == cb
    | _ => false)).length

/-- The callback each delivery attempt of an `emit` trace targets, in
order. -/
def deliveryTargets (effs : List Effect) : List Nat :=
  effs.filterMap (fun e => match e with
    | Effect.invoked _ c _ => some c
    | Effect.cbThrew _ c => some c
    | _ => none)

/-- Whether a trace schedules a reconnect timer. -/
def schedulesReconnect (effs : List Effect) : Bool :=
  effs.any (fun e => match e with
    | Effect.setTimeout _ => true
    | _ => false)

/-- The expected FIFO serialization of a queue: what draining it writes
when every write succeeds. -/
def fifoWrites (now : Nat) (q : List QMsg) : List WireMsg :=
  q.map (fun m => { type := m.event, data := m.data, timestamp := now })

/-- The effect trace of a drain in which every write succeeds: one
transport write per queued message, in queue order. -/
def okDrainTrace (sock now : Nat) (q : List QMsg) : List Effect :=
  q.map (fun m => Effect.wrote sock { type := m.event, data := m.data, timestamp := now })

/-- The browser moving the readyState of the socket the manager currently
references (e.g. to OPEN just before it fires the `open` event). -/
def setSocketReady (s : WSState) (rs : Nat) : WSState :=
  { s with socket := s.socket.map (fun sk => { sk with readyState := rs }) }

/-- A callback-throw oracle under which no callback throws. -/
def noThrows : Nat → Bool := fun _ => false

/-- A write oracle under which every transport write succeeds. -/
def allOk : Nat → Bool := fun _ => true

/-- A write oracle under which every transport write throws. -/
def allFail : Nat → Bool := fun _ => false

/-! ### Helper lemmas -/

theorem writesIn_append (a b : List Effect) : writesIn (a ++ b) = writesIn a ++ writesIn b := by
  simp [writesIn]

theorem emitCount_append (a b : List Effect) (e : String) :
    emitCount (a ++ b) e = emitCount a e + emitCount b e := by
  simp [emitCount]

theorem schedulesReconnect_append (a b : List Effect) :
    schedulesReconnect (a ++ b) = (schedulesReconnect a || schedulesReconnect b) := by
  simp [schedulesReconnect]

theorem writesIn_emit (throws : Nat → Bool) (s : WSState) (e : String) (p : Payload) :
    writesIn (emit throws s e p) = [] := by
  simp only [writesIn, emit, List.filterMap_cons]
  induction listenersFor s e with
  | nil => rfl
  | cons c t ih =>
    simp only [List.map_cons, List.filterMap_cons]
    cases throws c <;> simpa using ih

theorem schedulesReconnect_emit (throws : Nat → Bool) (s : WSState) (e : String) (p : Payload) :
    schedulesReconnect (emit throws s e p) = false := by
  simp only [schedulesReconnect, emit, List.any_cons]
  induction listenersFor s e with
  | nil => rfl
  | cons c t ih =>
    simp only [List.map_cons, List.any_cons] at *
    cases throws c <;> simpa using ih

theorem emitCount_emit (throws : Nat → Bool) (s : WSState) (e : String) (p : Payload)
    (e' : String) : emitCount (emit throws s e p) e' = if (e == e') then 1 else 0 := by
  simp only [emitCount, emit, List.filter_cons]
  have h : ∀ l : List Nat,
      (l.map (fun cb => if throws cb then Effect.cbThrew e cb else Effect.invoked e cb p)).filter
        (fun x => match x with
          | Effect.emitted e'' _ => e'' == e'
          | _ => false) = [] := by
    intro l
    induction l with
    | nil => rfl
    | cons c t ih =>
      simp only [List.map_cons, List.filter_cons]
      cases throws c <;> simpa using ih
  rw [h (listenersFor s e)]
  rcases Bool.eq_false_or_eq_true (e == e') with hb | hb <;> simp [hb]

theorem deliveryTargets_emit (throws : Nat → Bool) (s : WSState) (e : String) (p : Payload) :
    deliveryTargets (emit throws s e p) = listenersFor s e := by
  simp only [deliveryTargets, emit, List.filterMap_cons]
  induction listenersFor s e with
  | nil => rfl
  | cons c t ih =>
    simp only [List.map_cons, List.filterMap_cons]
    cases throws c <;> simpa using ih

theorem deliveriesTo_emit (throws : Nat → Bool) (s : WSState) (e : String) (p : Payload)
    (c : Nat) : deliveriesTo (emit throws s e p) c = (listenersFor s e).count c := by
  simp only [deliveriesTo, emit, List.filter_cons]
  induction listenersFor s e with
  | nil => rfl
  | cons a t ih =>
    simp only [List.map_cons, List.filter_cons, List.count_cons]
    by_cases hac : a = c
    · subst hac
      cases throws a <;> simp_all
    · have hb : (a == c) = false := by simpa using hac
      cases throws a <;> simp_all

theorem mem_emit_delivery (throws : Nat → Bool) (s : WSState) (e : String) (p : Payload)
    (cb : Nat) (hmem : cb ∈ listenersFor s e) :
    (if throws cb then Effect.cbThrew e cb else Effect.invoked e cb p) ∈ emit throws s e p := by
  simp only [emit, List.mem_cons]
  right
  exact List.mem_map_of_mem _ hmem

theorem send_connected_ok (now : Nat) (s : WSState) (ev d : String)
    (h : isConnected s = true) :
    send now true s ev d =
      (s, [Effect.wrote (socketId s) { type := ev, data := d, timestamp := now }]) := by
  simp [send, h]

theorem send_connected_fail (now : Nat) (s : WSState) (ev d : String)
    (h : isConnected s = true) :
    send now false s ev d =
      ({ s with messageQueue := s.messageQueue ++ [{ event := ev, data := d }] },
       [Effect.log "Failed to send WebSocket message"]) := by
  simp [send, h]

theorem send_not_connected (now : Nat) (w : Bool) (s : WSState) (ev d : String)
    (h : isConnected s = false) :
    send now w s ev d =
      ({ s with messageQueue := s.messageQueue ++ [{ event := ev, data := d }] },
       [Effect.log "WebSocket not connected, queueing message"]) := by
  simp [send, h]

theorem drainLoop_all_ok (now fuel : Nat) :
    ∀ (step : Nat) (s : WSState), isConnected s = true → s.messageQueue.length ≤ fuel →
    drainLoop now allOk fuel step s =
      some ({ s with messageQueue := [] }, okDrainTrace (socketId s) now s.messageQueue) := by
  induction fuel with
  | zero =>
    intro step s hconn hfuel
    have hq : s.messageQueue = [] := List.eq_nil_of_length_eq_zero (Nat.le_zero.mp hfuel)
    have hs : ({ s with messageQueue := [] } : WSState) = s := by rw [← hq]
    simp [drainLoop, hq, hs, okDrainTrace]
  | succ n ih =>
    intro step s hconn hfuel
    match hq : s.messageQueue with
    | [] =>
      have hs : ({ s with messageQueue := [] } : WSState) = s := by rw [← hq]
      simp [drainLoop, hq, hs, okDrainTrace]
    | m :: rest =>
      have hc1 : isConnected { s with messageQueue := rest } = true := hconn
      have hlen : rest.length ≤ n := by
        have h2 := hfuel
        rw [hq] at h2
        simpa [Nat.succ_le_succ_iff] using h2
      have hrec := ih (step + 1) { s with messageQueue := rest } hc1 hlen
      simp only [drainLoop, hq]
      rw [show allOk step = true from rfl,
        send_connected_ok now { s with messageQueue := rest } m.event m.data hc1]
      simp only [hrec, okDrainTrace, List.map_cons]
      rfl

theorem drainLoop_all_fail (now fuel : Nat) :
    ∀ (step : Nat) (s : WSState), isConnected s = true → s.messageQueue ≠ [] →
    drainLoop now allFail fuel step s = none := by
  induction fuel with
  | zero =>
    intro step s hconn hne
    simp [drainLoop, List.isEmpty_iff, hne]
  | succ n ih =>
    intro step s hconn hne
    match hq : s.messageQueue with
    | [] => exact absurd hq hne
    | m :: rest =>
      have hc1 : isConnected { s with messageQueue := rest } = true := hconn
      have hrec := ih (step + 1)
        { s with messageQueue := rest ++ [{ event := m.event, data := m.data }] }
        hconn (by simp)
      simp only [drainLoop, hq]
      rw [show allFail step = false from rfl,
        send_connected_fail now { s with messageQueue := rest } m.event m.data hc1]
      simp only [hrec]

theorem sendMany_not_connected (now : Nat) (w : Bool) :
    ∀ (msgs : List QMsg) (s : WSState), isConnected s = false →
    (sendMany now w s msgs).1 = { s with messageQueue := s.messageQueue ++ msgs } ∧
    writesIn (sendMany now w s msgs).2 = [] := by
  intro msgs
  induction msgs with
  | nil =>
    intro s h
    refine ⟨?_, rfl⟩
    show s = { s with messageQueue := s.messageQueue ++ [] }
    simp
  | cons m rest ih =>
    intro s h
    have hm : ({ event := m.event, data := m.data } : QMsg) = m := rfl
    have hstep := send_not_connected now w s m.event m.data h
    rw [hm] at hstep
    have h1 : isConnected { s with messageQueue := s.messageQueue ++ [m] } = false := h
    have hrec := ih { s with messageQueue := s.messageQueue ++ [m] } h1
    simp only [sendMany, hstep]
    refine ⟨?_, ?_⟩
    · rw [hrec.1]
      simp
    · rw [writesIn_append, hrec.2]
      rfl

theorem mem_setAdd (l : List Nat) (cb : Nat) : cb ∈ setAdd l cb := by
  by_cases h : cb ∈ l <;> simp [setAdd, h]

theorem setAdd_of_mem {l : List Nat} {cb : Nat} (h : cb ∈ l) : setAdd l cb = l := by
  simp [setAdd, h]

theorem setAdd_idem (l : List Nat) (cb : Nat) : setAdd (setAdd l cb) cb = setAdd l cb :=
  setAdd_of_mem (mem_setAdd l cb)

theorem count_setAdd (l : List Nat) (cb : Nat) (h : l.count cb ≤ 1) :
    (setAdd l cb).count cb = 1 := by
  by_cases hm : cb ∈ l
  · rw [setAdd_of_mem hm]
    have h1 : 0 < l.count cb := List.count_pos_iff.mpr hm
    omega
  · have h0 : l.count cb = 0 := List.count_eq_zero.mpr hm
    simp [setAdd, hm, List.count_append, h0]

theorem lookup_addListener_same (l : List (String × List Nat)) (e : String) (cb : Nat) :
    lookupListeners (addListener l e cb) e = setAdd (lookupListeners l e) cb := by
  induction l with
  | nil => simp [addListener, lookupListeners, List.find?, setAdd]
  | cons p rest ih =>
    rcases p with ⟨k, v⟩
    by_cases hk : (k == e) = true
    · simp [addListener, hk, lookupListeners, List.find?]
    · have hk' : (k == e) = false := by simpa using hk
      simpa [addListener, hk', lookupListeners, List.find?] using ih

theorem addListener_idem (l : List (String × List Nat)) (e : String) (cb : Nat) :
    addListener (addListener l e cb) e cb = addListener l e cb := by
  induction l with
  | nil =>
    simp [addListener]
    exact setAdd_of_mem (by simp)
  | cons p rest ih =>
    rcases p with ⟨k, v⟩
    by_cases hk : (k == e) = true
    · simp [addListener, hk, setAdd_idem]
    · have hk' : (k == e) = false := by simpa using hk
      simp [addListener, hk', ih]

theorem filter_ne_idem (l : List Nat) (cb : Nat) :
    (l.filter (fun c => c ≠ cb)).filter (fun c => c ≠ cb) = l.filter (fun c => c ≠ cb) := by
  induction l with
  | nil => rfl
  | cons a t ih =>
    by_cases ha : a = cb
    · subst ha
      simp [ih]
    · simp [ha, ih]

theorem lookup_removeListener_same (l : List (String × List Nat)) (e : String) (cb : Nat) :
    lookupListeners (removeListener l e cb) e = (lookupListeners l e).filter (fun c => c ≠ cb) := by
  induction l with
  | nil => simp [removeListener, lookupListeners, List.find?]
  | cons p rest ih =>
    rcases p with ⟨k, v⟩
    by_cases hk : (k == e) = true
    · simp [removeListener, hk, lookupListeners, List.find?]
    · have hk' : (k == e) = false := by simpa using hk
      simpa [removeListener, hk', lookupListeners, List.find?] using ih

theorem removeListener_idem (l : List (String × List Nat)) (e : String) (cb : Nat) :
    removeListener (removeListener l e cb) e cb = removeListener l e cb := by
  induction l with
  | nil => rfl
  | cons p rest ih =>
    rcases p with ⟨k, v⟩
    by_cases hk : (k == e) = true
    · simp [removeListener, hk, filter_ne_idem]
    · have hk' : (k == e) = false := by simpa using hk
      simp [removeListener, hk', ih]

theorem writesIn_okDrainTrace (sock now : Nat) (q : List QMsg) :
    writesIn (okDrainTrace sock now q) = fifoWrites now q := by
  induction q with
  | nil => rfl
  | cons m rest ih => simp [okDrainTrace, fifoWrites, writesIn, List.filterMap_cons] at *; exact ih

theorem writesIn_startPing (s : WSState) : writesIn (startPingInterval s).2 = [] := by
  by_cases h : s.pingInterval = true <;>
    simp [startPingInterval, stopPingInterval, h, writesIn]

theorem writesIn_cons_log (m : String) (l : List Effect) :
    writesIn (Effect.log m :: l) = writesIn l := rfl

theorem emitCount_cons_log (m : String) (l : List Effect) (e : String) :
    emitCount (Effect.log m :: l) e = emitCount l e := rfl

theorem schedulesReconnect_cons_log (m : String) (l : List Effect) :
    schedulesReconnect (Effect.log m :: l) = schedulesReconnect l := by
  simp [schedulesReconnect]

theorem emitCount_close_trace (throws : Nat → Bool) (t : WSState) (code : Nat)
    (reason : String) (now : Nat) (e : String) (b : Bool) :
    emitCount ((Effect.log "WebSocket disconnected" ::
        emit throws t "disconnected" (Payload.closeInfo code reason now)) ++
        (if b then [Effect.clearInterval] else [])) e =
      if ("disconnected" == e) then 1 else 0 := by
  rw [emitCount_append]
  rw [show emitCount (Effect.log "WebSocket disconnected" ::
      emit throws t "disconnected" (Payload.closeInfo code reason now)) e =
    emitCount (emit throws t "disconnected" (Payload.closeInfo code reason now)) e from rfl]
  rw [emitCount_emit]
  cases b <;> simp [emitCount]

theorem schedulesReconnect_close_trace (throws : Nat → Bool) (t : WSState) (code : Nat)
    (reason : String) (now : Nat) (b : Bool) :
    schedulesReconnect ((Effect.log "WebSocket disconnected" ::
        emit throws t "disconnected" (Payload.closeInfo code reason now)) ++
        (if b then [Effect.clearInterval] else [])) = false := by
  rw [schedulesReconnect_append, schedulesReconnect_cons_log, schedulesReconnect_emit]
  cases b <;> rfl

/-- When the attempt counter has reached the maximum, the `onclose` handler
emits `disconnected` and stops the heartbeat but schedules nothing. -/
theorem handleClose_no_retry (throws : Nat → Bool) (code : Nat) (reason : String) (now : Nat)
    (t : WSState) (h : ¬ t.reconnectAttempts < t.maxReconnectAttempts) :
    handleClose throws code reason now t =
      ({ t with pingInterval := false },
       (Effect.log "WebSocket disconnected" ::
         emit throws t "disconnected" (Payload.closeInfo code reason now)) ++
       (if t.pingInterval then [Effect.clearInterval] else [])) := by
  by_cases hp : t.pingInterval = true
  · simp [handleClose, stopPingInterval, hp, h]
  · have hp' : t.pingInterval = false := by simpa using hp
    have he : ({ t with pingInterval := false } : WSState) = t := by rw [← hp']
    simp [handleClose, stopPingInterval, hp', h, he]

/-! ### Concrete fixtures used by witnesses and counterexamples -/

/-- A `connect` environment in which `new WebSocket(wsUrl)` throws
synchronously (e.g. a malformed endpoint). -/
def envCtorFail : ConnectEnv :=
  { ctorOk := false, freshId := 1, now := 0, throws := noThrows }

/-- A `connect` environment in which `new WebSocket(wsUrl)` returns a fresh
handle with identity 1. -/
def envOk : ConnectEnv :=
  { ctorOk := true, freshId := 1, now := 0, throws := noThrows }

/-- A state whose attempt counter is three (three consecutive failures). -/
def backoffProbe : WSState := { initialState with reconnectAttempts := 3 }

/-- A state holding an OPEN transport handle. -/
def openProbe : WSState :=
  { initialState with socket := some { id := 7, readyState := OPEN } }

/-! ### Claim theorems -/

/-- C1, counterexample: with the attempt counter (0) below the configured
maximum (5), a synchronous transport-construction failure inside `connect`
schedules no reconnect attempt: the effect trace contains no `setTimeout`
and no reconnect timer becomes pending.  This refutes the claim that such
a failure feeds the same reconnect logic as a transport-signaled closure. -/
theorem C1_counterexample_ctor_throw_schedules_nothing :
    initialState.reconnectAttempts < initialState.maxReconnectAttempts ∧
    schedulesReconnect (connect envCtorFail initialState).2 = false ∧
    (connect envCtorFail initialState).1.reconnectTimeout = none := by
  refine ⟨by decide, by decide, by decide⟩

/-- C1, amended: if transport construction throws synchronously inside
`connect` (and the manager is not already Open), the manager logs, emits an
`error` event and returns with its state unchanged: the connection never
reaches Open (no `connected` emission), but contrary to the claim no
reconnect attempt is scheduled, whatever the attempt counter is — the
catch block does not feed the reconnect logic. -/
theorem C1_ctor_throw_emits_error_without_reconnect (env : ConnectEnv) (s : WSState)
    (hopen : isConnected s = false) (hctor : env.ctorOk = false) :
    connect env s =
      (s, Effect.log "Failed to create WebSocket connection" ::
          emit env.throws s "error" (Payload.errorInfo env.now)) ∧
    schedulesReconnect (connect env s).2 = false ∧
    emitCount (connect env s).2 "connected" = 0 ∧
    (connect env s).1 = s := by
  have h1 : connect env s =
      (s, Effect.log "Failed to create WebSocket connection" ::
          emit env.throws s "error" (Payload.errorInfo env.now)) := by
    simp [connect, hopen, hctor]
  refine ⟨h1, ?_, ?_, by rw [h1]⟩
  · rw [h1]
    show schedulesReconnect ([Effect.log "Failed to create WebSocket connection"] ++
      emit env.throws s "error" (Payload.errorInfo env.now)) = false
    rw [schedulesReconnect_append, schedulesReconnect_emit]
    rfl
  · rw [h1]
    show emitCount ([Effect.log "Failed to create WebSocket connection"] ++
      emit env.throws s "error" (Payload.errorInfo env.now)) "connected" = 0
    rw [emitCount_append, emitCount_emit]
    rfl

/-- Witness for the amended C1 theorem at a concrete input. -/
theorem C1_witness :
    isConnected initialState = false ∧ envCtorFail.ctorOk = false ∧
    (connect envCtorFail initialState =
      (initialState, Effect.log "Failed to create WebSocket connection" ::
          emit envCtorFail.throws initialState "error" (Payload.errorInfo envCtorFail.now)) ∧
     schedulesReconnect (connect envCtorFail initialState).2 = false ∧
     emitCount (connect envCtorFail initialState).2 "connected" = 0 ∧
     (connect envCtorFail initialState).1 = initialState) :=
  ⟨rfl, rfl, C1_ctor_throw_emits_error_without_reconnect envCtorFail initialState rfl rfl⟩

/-- C3: `scheduleReconnect` increments the attempt counter first and
schedules the reconnect after exactly
`reconnectDelay * 2 ^ min (newAttempts - 1) 4` time-units, where
`reconnectDelay` defaults to 1000 and the exponent cap is the fixed
constant 4; consequently, after `n` consecutive failed attempts with
`n < 5`, the `(n+1)`-th attempt is scheduled no earlier than
`reconnectDelay * 2 ^ (n-1)` after the closure. -/
theorem C3_backoff_delay (s : WSState) (h : s.reconnectAttempts < 5) :
    (scheduleReconnect s).1.reconnectAttempts = s.reconnectAttempts + 1 ∧
    (scheduleReconnect s).1.reconnectTimeout =
      some (s.reconnectDelay * 2 ^ min s.reconnectAttempts 4) ∧
    Effect.setTimeout (s.reconnectDelay * 2 ^ min s.reconnectAttempts 4) ∈
      (scheduleReconnect s).2 ∧
    s.reconnectDelay * 2 ^ (s.reconnectAttempts - 1) ≤
      s.reconnectDelay * 2 ^ min s.reconnectAttempts 4 ∧
    initialState.reconnectDelay = 1000 ∧ initialState.maxReconnectAttempts = 5 := by
  refine ⟨?_, ?_, ?_, ?_, rfl, rfl⟩
  · simp [scheduleReconnect]
  · simp [scheduleReconnect]
  · simp [scheduleReconnect]
  · exact Nat.mul_le_mul_left _ (Nat.pow_le_pow_right (by norm_num) (by omega))

/-- Witness for C3: three failures in, the fourth attempt is scheduled
8000 time-units out. -/
theorem C3_witness :
    (scheduleReconnect backoffProbe).1.reconnectTimeout = some 8000 :=
  Eq.trans (C3_backoff_delay backoffProbe (by decide)).2.1 (by decide)

/-- C4: calling `connect` while the connection is already Open returns
after a log only: the manager state (socket, queue, counters, timers,
subscribers) is returned unchanged, no fresh transport is constructed and
no `connected` event is emitted. -/
theorem C4_connect_when_open_noop (env : ConnectEnv) (s : WSState)
    (h : isConnected s = true) :
    connect env s = (s, [Effect.log "WebSocket already connected"]) := by
  simp [connect, h]

/-- Witness for C4 at a concrete Open state. -/
theorem C4_witness :
    isConnected openProbe = true ∧
    connect envOk openProbe = (openProbe, [Effect.log "WebSocket already connected"]) :=
  ⟨rfl, C4_connect_when_open_noop envOk openProbe rfl⟩

/-- C2: `send` calls made while the connection is not Open append to the
outbound queue in call order and write nothing to the transport; on the
transition to Open, the `onopen` drain (given that every write succeeds,
with fuel equal to the queue length) terminates with an empty queue having
written exactly the queued messages, serialized, in FIFO order, through
the same `send` path; and a message whose write throws during the drain is
re-appended to the queue by that `send` path, not dropped. -/
theorem C2_offline_sends_drain_fifo (now now2 : Nat) (throws : Nat → Bool)
    (s s2 s3 : WSState) (msgs : List QMsg) (ev d : String)
    (h1 : isConnected s = false) (h2 : isConnected s2 = true)
    (h3 : isConnected s3 = true) :
    (sendMany now true s msgs).1.messageQueue = s.messageQueue ++ msgs ∧
    writesIn (sendMany now true s msgs).2 = [] ∧
    (handleOpen throws allOk now2 s2.messageQueue.length s2).map
        (fun r => (r.1.messageQueue, writesIn r.2)) =
      some ([], fifoWrites now2 s2.messageQueue) ∧
    (send now2 false s3 ev d).1.messageQueue =
      s3.messageQueue ++ [{ event := ev, data := d }] := by
  have hq := sendMany_not_connected now true msgs s h1
  refine ⟨?_, hq.2, ?_, ?_⟩
  · rw [hq.1]
  · have hc0 : isConnected { s2 with reconnectAttempts := 0 } = true := h2
    have hdr := drainLoop_all_ok now2 s2.messageQueue.length 0
      { s2 with reconnectAttempts := 0 } hc0 (Nat.le_refl _)
    simp only [handleOpen, hdr, Option.map_some']
    rw [Option.some_inj, Prod.mk.injEq]
    refine ⟨?_, ?_⟩
    · by_cases hp : s2.pingInterval = true <;>
        simp [startPingInterval, stopPingInterval, hp]
    · rw [writesIn_append, writesIn_append, writesIn_cons_log, writesIn_emit,
        writesIn_okDrainTrace, writesIn_startPing]
      simp
  · rw [send_connected_fail now2 s3 ev d h3]

/-- A disconnected state with two messages already queued, used as the C2
witness input. -/
def queuedProbe : WSState :=
  { initialState with
    socket := some { id := 2, readyState := OPEN }
    messageQueue := [{ event := "a", data := "1" }, { event := "b", data := "2" }] }

/-- Witness for C2 at concrete inputs. -/
theorem C2_witness :
    isConnected initialState = false ∧ isConnected queuedProbe = true ∧
    ((sendMany 5 true initialState
        [{ event := "a", data := "1" }, { event := "b", data := "2" }]).1.messageQueue =
      initialState.messageQueue ++ [{ event := "a", data := "1" }, { event := "b", data := "2" }] ∧
     writesIn (sendMany 5 true initialState
        [{ event := "a", data := "1" }, { event := "b", data := "2" }]).2 = [] ∧
     (handleOpen noThrows allOk 6 queuedProbe.messageQueue.length queuedProbe).map
        (fun r => (r.1.messageQueue, writesIn r.2)) =
      some ([], fifoWrites 6 queuedProbe.messageQueue) ∧
     (send 6 false queuedProbe "c" "3").1.messageQueue =
       queuedProbe.messageQueue ++ [{ event := "c", data := "3" }]) :=
  ⟨rfl, rfl, C2_offline_sends_drain_fifo 5 6 noThrows initialState queuedProbe queuedProbe
    [{ event := "a", data := "1" }, { event := "b", data := "2" }] "c" "3" rfl rfl rfl⟩

/-- C10: the `onopen` drain loop, run on a connected transport whose
writes all succeed, terminates within `fuel ≥ queue length` steps leaving
the queue empty (writing one message per step); a write that throws
re-appends the message to the very queue the loop is consuming; and when
the transport rejects every write, the loop fails to terminate within any
finite number of steps. -/
theorem C10_drain_terminates_or_diverges (now : Nat) (s s2 : WSState)
    (fuel fuel2 step step2 : Nat) (ev d : String)
    (h1 : isConnected s = true) (hfuel : s.messageQueue.length ≤ fuel)
    (h2 : isConnected s2 = true) (hne : s2.messageQueue ≠ []) :
    drainLoop now allOk fuel step s =
      some ({ s with messageQueue := [] }, okDrainTrace (socketId s) now s.messageQueue) ∧
    (send now false s2 ev d).1.messageQueue = s2.messageQueue ++ [{ event := ev, data := d }] ∧
    drainLoop now allFail fuel2 step2 s2 = none := by
  refine ⟨drainLoop_all_ok now fuel step s h1 hfuel, ?_,
    drainLoop_all_fail now fuel2 step2 s2 h2 hne⟩
  rw [send_connected_fail now s2 ev d h2]

/-- Witness for C10 at concrete inputs. -/
theorem C10_witness :
    isConnected queuedProbe = true ∧ queuedProbe.messageQueue.length ≤ 2 ∧
    queuedProbe.messageQueue ≠ [] ∧
    (drainLoop 4 allOk 2 0 queuedProbe =
      some ({ queuedProbe with messageQueue := [] },
            okDrainTrace (socketId queuedProbe) 4 queuedProbe.messageQueue) ∧
     (send 4 false queuedProbe "c" "3").1.messageQueue =
       queuedProbe.messageQueue ++ [{ event := "c", data := "3" }] ∧
     drainLoop 4 allFail 37 0 queuedProbe = none) :=
  ⟨rfl, by decide, by decide,
   C10_drain_terminates_or_diverges 4 queuedProbe queuedProbe 2 37 0 0 "c" "3" rfl
     (by decide) rfl (by decide)⟩

/-- C5: explicit `disconnect`, from any state holding a transport handle,
cancels the pending reconnect timer when one exists, stops the heartbeat
when it runs, forces the attempt counter to the configured maximum, closes
the transport and clears the outbound queue, emitting nothing itself; and
when the browser then delivers the close event of the explicit close, the
combined trace carries exactly one `disconnected` emission and no
reconnect is scheduled (the forced counter suppresses the auto-reconnect),
leaving no reconnect timer pending. -/
theorem C5_disconnect_suppresses_reconnect (throws : Nat → Bool) (code : Nat)
    (reason : String) (now : Nat) (s : WSState) (sk : Socket)
    (hsk : s.socket = some sk) :
    (disconnect s).1 = { s with
      reconnectTimeout := none
      pingInterval := false
      reconnectAttempts := s.maxReconnectAttempts
      socket := none
      messageQueue := [] } ∧
    (disconnect s).2 =
      (if s.reconnectTimeout.isSome then [Effect.clearTimeout] else []) ++
      ((if s.pingInterval then [Effect.clearInterval] else []) ++ [Effect.closeSock sk.id]) ∧
    emitCount ((disconnect s).2 ++
        (handleClose throws code reason now (disconnect s).1).2) "disconnected" = 1 ∧
    schedulesReconnect ((disconnect s).2 ++
        (handleClose throws code reason now (disconnect s).1).2) = false ∧
    (handleClose throws code reason now (disconnect s).1).1.reconnectTimeout = none := by
  have hstate : (disconnect s).1 = { s with
      reconnectTimeout := none
      pingInterval := false
      reconnectAttempts := s.maxReconnectAttempts
      socket := none
      messageQueue := [] } := by
    by_cases hp : s.pingInterval = true <;>
      rcases ht : s.reconnectTimeout with _ | dl <;>
        simp [disconnect, stopPingInterval, hsk, hp, ht]
  have htrace : (disconnect s).2 =
      (if s.reconnectTimeout.isSome then [Effect.clearTimeout] else []) ++
      ((if s.pingInterval then [Effect.clearInterval] else []) ++ [Effect.closeSock sk.id]) := by
    by_cases hp : s.pingInterval = true <;>
      rcases ht : s.reconnectTimeout with _ | dl <;>
        simp [disconnect, stopPingInterval, hsk, hp, ht]
  have hmaxD : ¬ (disconnect s).1.reconnectAttempts < (disconnect s).1.maxReconnectAttempts := by
    rw [hstate]
    simp
  have hcl := handleClose_no_retry throws code reason now (disconnect s).1 hmaxD
  have hping : (disconnect s).1.pingInterval = false := by
    rw [hstate]
  have hzero : emitCount (disconnect s).2 "disconnected" = 0 := by
    rw [htrace]
    by_cases hp : s.pingInterval = true <;>
      rcases ht : s.reconnectTimeout with _ | dl <;> simp [hp, ht, emitCount]
  have hzero2 : schedulesReconnect (disconnect s).2 = false := by
    rw [htrace]
    by_cases hp : s.pingInterval = true <;>
      rcases ht : s.reconnectTimeout with _ | dl <;> simp [hp, ht, schedulesReconnect]
  have hcl2 := congrArg Prod.snd hcl
  have hcl1 := congrArg Prod.fst hcl
  dsimp only at hcl2 hcl1
  refine ⟨hstate, htrace, ?_, ?_, ?_⟩
  · rw [emitCount_append, hzero, hcl2, emitCount_close_trace]
    simp
  · rw [schedulesReconnect_append, hzero2, hcl2, schedulesReconnect_close_trace]
    rfl
  · rw [hcl1]
    rw [show ({ (disconnect s).1 with pingInterval := false } : WSState).reconnectTimeout =
      (disconnect s).1.reconnectTimeout from rfl, hstate]

/-- A live state with heartbeat running, a reconnect timer pending, a
non-empty queue and a partially advanced attempt counter. -/
def liveProbe : WSState :=
  { initialState with
    socket := some { id := 3, readyState := OPEN }
    pingInterval := true
    reconnectTimeout := some 4000
    reconnectAttempts := 2
    messageQueue := [{ event := "a", data := "1" }] }

/-- Witness for C5 at a concrete live state. -/
theorem C5_witness :
    liveProbe.socket = some { id := 3, readyState := OPEN } ∧
    (disconnect liveProbe).1 = { liveProbe with
      reconnectTimeout := none
      pingInterval := false
      reconnectAttempts := liveProbe.maxReconnectAttempts
      socket := none
      messageQueue := [] } ∧
    emitCount ((disconnect liveProbe).2 ++
        (handleClose noThrows 1000 "bye" 9 (disconnect liveProbe).1).2) "disconnected" = 1 :=
  ⟨rfl,
   (C5_disconnect_suppresses_reconnect noThrows 1000 "bye" 9 liveProbe
      { id := 3, readyState := OPEN } rfl).1,
   (C5_disconnect_suppresses_reconnect noThrows 1000 "bye" 9 liveProbe
      { id := 3, readyState := OPEN } rfl).2.2.1⟩

/-- C6: `emit` attempts delivery to every registered subscriber of the
event, in registration order, for every pattern of callback failures: the
delivery-target sequence equals the subscriber list whatever the throw
oracle says, a subscriber that throws yields a caught-and-logged entry in
place (while a non-throwing one is invoked with the emitted payload), and
a later emission on any other event again reaches all of its subscribers
— no exception ever escapes `emit`. -/
theorem C6_emit_isolates_subscriber_failures (throws : Nat → Bool) (s : WSState)
    (e e2 : String) (p p2 : Payload) (cb : Nat) (hmem : cb ∈ listenersFor s e) :
    deliveryTargets (emit throws s e p) = listenersFor s e ∧
    (if throws cb then Effect.cbThrew e cb else Effect.invoked e cb p) ∈ emit throws s e p ∧
    deliveryTargets (emit throws s e2 p2) = listenersFor s e2 :=
  ⟨deliveryTargets_emit throws s e p, mem_emit_delivery throws s e p cb hmem,
   deliveryTargets_emit throws s e2 p2⟩

/-- Two subscribers on event X (the first of which throws) and one on
event Y. -/
def listenerProbe : WSState :=
  onEvent (onEvent (onEvent initialState "X" 1) "X" 2) "Y" 3

/-- A throw oracle under which exactly callback 1 throws. -/
def throwsProbe : Nat → Bool := fun cb => cb == 1

/-- Witness for C6: callback 1 throwing on X does not stop callback 2 on X
nor callback 3 on a later Y emission. -/
theorem C6_witness :
    (2 : Nat) ∈ listenersFor listenerProbe "X" ∧
    (deliveryTargets (emit throwsProbe listenerProbe "X" (Payload.raw "hi")) =
      listenersFor listenerProbe "X" ∧
     (if throwsProbe 2 then Effect.cbThrew "X" 2
        else Effect.invoked "X" 2 (Payload.raw "hi")) ∈
       emit throwsProbe listenerProbe "X" (Payload.raw "hi") ∧
     deliveryTargets (emit throwsProbe listenerProbe "Y" (Payload.raw "bye")) =
      listenersFor listenerProbe "Y") :=
  ⟨by decide, C6_emit_isolates_subscriber_failures throwsProbe listenerProbe "X" "Y"
    (Payload.raw "hi") (Payload.raw "bye") 2 (by decide)⟩

/-- A state whose attempt counter has reached the configured maximum. -/
def exhaustedProbe : WSState := { initialState with reconnectAttempts := 5 }

/-- C7, counterexample: with the counter at the maximum, an explicit
`connect` call does create a fresh transport attempt, but it does not
reset the attempt counter (it stays at 5, not 0), and a closure arriving
right after the call still schedules no reconnect — the counter resets
only once the new attempt reaches Open. -/
theorem C7_counterexample_connect_keeps_counter :
    exhaustedProbe.reconnectAttempts = exhaustedProbe.maxReconnectAttempts ∧
    (connect envOk exhaustedProbe).1.socket = some { id := 1, readyState := CONNECTING } ∧
    ¬ (connect envOk exhaustedProbe).1.reconnectAttempts = 0 ∧
    schedulesReconnect
      (handleClose noThrows 1006 "" 0 (connect envOk exhaustedProbe).1).2 = false := by
  refine ⟨by decide, by decide, by decide, by decide⟩

/-- C7, amended: once the attempt counter has reached the configured
maximum, no closure schedules an automatic reconnect (the counter and the
reconnect timer are left untouched); a subsequent explicit `connect`
installs a fresh transport handle and may succeed, and the counter is
reset to zero when — and only when — that attempt reaches Open and the
`onopen` handler runs. -/
theorem C7_after_max_manual_connect (throws : Nat → Bool) (code : Nat) (reason : String)
    (now : Nat) (s : WSState) (env : ConnectEnv)
    (hmax : ¬ s.reconnectAttempts < s.maxReconnectAttempts)
    (hnotopen : isConnected s = false) (hctor : env.ctorOk = true) :
    schedulesReconnect (handleClose throws code reason now s).2 = false ∧
    (handleClose throws code reason now s).1.reconnectTimeout = s.reconnectTimeout ∧
    (handleClose throws code reason now s).1.reconnectAttempts = s.reconnectAttempts ∧
    (connect env s).1.socket = some { id := env.freshId, readyState := CONNECTING } ∧
    (handleOpen throws allOk now (connect env s).1.messageQueue.length
        (setSocketReady (connect env s).1 OPEN)).map (fun r => r.1.reconnectAttempts) =
      some 0 := by
  have hcl := handleClose_no_retry throws code reason now s hmax
  have hc : connect env s =
      ({ s with socket := some { id := env.freshId, readyState := CONNECTING } }, []) := by
    simp [connect, hnotopen, hctor]
  have hcl2 := congrArg Prod.snd hcl
  have hcl1 := congrArg Prod.fst hcl
  dsimp only at hcl2 hcl1
  refine ⟨?_, ?_, ?_, ?_, ?_⟩
  · rw [hcl2, schedulesReconnect_close_trace]
  · rw [hcl1]
  · rw [hcl1]
  · rw [hc]
  · rw [hc]
    have hset : setSocketReady
        { s with socket := some { id := env.freshId, readyState := CONNECTING } } OPEN =
        { s with socket := some { id := env.freshId, readyState := OPEN } } := by
      simp [setSocketReady]
    rw [hset]
    have hconn : isConnected
        { s with socket := some { id := env.freshId, readyState := OPEN } } = true := by
      simp [isConnected]
    have hc0 : isConnected { s with
        socket := some { id := env.freshId, readyState := OPEN }
        reconnectAttempts := 0 } = true := hconn
    have hdr := drainLoop_all_ok now s.messageQueue.length 0
      { s with
        socket := some { id := env.freshId, readyState := OPEN }
        reconnectAttempts := 0 } hc0 (Nat.le_refl _)
    simp only [handleOpen, hdr, Option.map_some']
    by_cases hp : s.pingInterval = true <;>
      simp [startPingInterval, stopPingInterval, hp]

/-- Witness for the amended C7 theorem at a concrete input. -/
theorem C7_witness :
    (¬ exhaustedProbe.reconnectAttempts < exhaustedProbe.maxReconnectAttempts) ∧
    isConnected exhaustedProbe = false ∧ envOk.ctorOk = true ∧
    (handleOpen noThrows allOk 0 (connect envOk exhaustedProbe).1.messageQueue.length
        (setSocketReady (connect envOk exhaustedProbe).1 OPEN)).map
      (fun r => r.1.reconnectAttempts) = some 0 :=
  ⟨by decide, rfl, rfl,
   (C7_after_max_manual_connect noThrows 1006 "" 0 exhaustedProbe envOk (by decide)
      rfl rfl).2.2.2.2⟩

/-- A state whose connection attempt is still pending (handle 0 is
CONNECTING, its four handlers attached since construction). -/
def pendingProbe : WSState :=
  { initialState with socket := some { id := 0, readyState := CONNECTING } }

/-- C8: evaluation at the failing input.  Calling `connect` while the
previous attempt (handle 0) is still pending replaces the stored
reference by fresh handle 1 with an empty effect trace: handle 0 is
neither closed nor are its callbacks detached (the source has no such
statement), so handle 0 stays live with the manager handlers attached.
A close event the browser later delivers on the superseded handle 0
therefore still runs the manager `onclose`: it emits a spurious
`disconnected` and schedules an automatic reconnect.  Likewise nothing
stops handle 0 from reaching OPEN alongside handle 1, so two live
transports can coexist, violating the claimed invariant. -/
theorem C8_pending_connect_leaks_stale_handler :
    (connect envOk pendingProbe).1.socket = some { id := 1, readyState := CONNECTING } ∧
    (connect envOk pendingProbe).2 = [] ∧
    emitCount (handleClose noThrows 1006 "" 0
        (connect envOk pendingProbe).1).2 "disconnected" = 1 ∧
    schedulesReconnect (handleClose noThrows 1006 "" 0
        (connect envOk pendingProbe).1).2 = true := by
  refine ⟨by decide, by decide, by decide, by decide⟩

/-- C9: the subscriber registry has set semantics per event name —
registering the same callback identity twice stores it once (the second
`on` is a no-op on the state), a single emission delivers to that callback
exactly once, the unsubscribe capability removes exactly that callback
from the set for the event, and running the capability again (or when the
callback is already absent) is a no-op. -/
theorem C9_subscriber_set_semantics (s : WSState) (event : String) (cb : Nat)
    (throws : Nat → Bool) (p : Payload)
    (hcount : (listenersFor s event).count cb ≤ 1) :
    onEvent (onEvent s event cb) event cb = onEvent s event cb ∧
    deliveriesTo (emit throws (onEvent s event cb) event p) cb = 1 ∧
    listenersFor (unsubscribe (onEvent s event cb) event cb) event =
      (listenersFor (onEvent s event cb) event).filter (fun c => c ≠ cb) ∧
    unsubscribe (unsubscribe s event cb) event cb = unsubscribe s event cb := by
  refine ⟨?_, ?_, ?_, ?_⟩
  · simp [onEvent, addListener_idem]
  · rw [deliveriesTo_emit]
    show (lookupListeners (addListener s.listeners event cb) event).count cb = 1
    rw [lookup_addListener_same]
    exact count_setAdd _ _ hcount
  · exact lookup_removeListener_same (onEvent s event cb).listeners event cb
  · simp [unsubscribe, removeListener_idem]

/-- Witness for C9 at a concrete input. -/
theorem C9_witness :
    (listenersFor initialState "X").count 1 ≤ 1 ∧
    (onEvent (onEvent initialState "X" 1) "X" 1 = onEvent initialState "X" 1 ∧
     deliveriesTo (emit noThrows (onEvent initialState "X" 1) "X" (Payload.raw "z")) 1 = 1 ∧
     listenersFor (unsubscribe (onEvent initialState "X" 1) "X" 1) "X" =
       (listenersFor (onEvent initialState "X" 1) "X").filter (fun c => c ≠ 1) ∧
     unsubscribe (unsubscribe initialState "X" 1) "X" 1 = unsubscribe initialState "X" 1) :=
  ⟨by decide, C9_subscriber_set_semantics initialState "X" 1 noThrows (Payload.raw "z")
    (by decide)⟩

end WS
